import Mathlib

/-!
Verification of the File Comparison Tool (a Python desktop application that
compares two tabular files with four set-style operations).

The development shallowly embeds the claim-relevant parts of the source:

* `src/services/comparison_engine.py`   — the four comparison operations,
  column-compatibility validation, cancellation;
* `src/services/performance_optimizer.py` — the optimized comparison path,
  lookup-set construction, chunked processing, processing-time estimation;
* `src/services/file_parser_service.py` — CSV parsing with encoding fallback;
* `src/services/export_service.py`      — export input validation;
* `src/services/error_handler.py`       — the retry-dialog counter logic;
* `src/controllers/main_controller.py`  — the workflow state machine;
* `src/gui/results_panel.py`            — results pagination.

Dataframes are modelled as lists of rows of optional string cells
(object/string dtype columns; `none` stands for a pandas null / NaN).
All claims under verification concern object-dtype comparison columns, for
which pandas dtype bucketing in `validate_column_compatibility` puts both
columns in the `string` group, so the dtype-group check reduces to the
existence and not-all-null checks that are modelled explicitly.
Wall-clock fields (`processing_time`) and human-readable `summary` strings
of `OperationResult` are elided: no claim mentions them.
-/

namespace FileComparison

/-- A table cell: `none` models a pandas null (NaN). -/

abbrev Cell := Option String

/-- A row of cells, aligned with the frame's column list. -/

abbrev Row := List Cell

/-- Shallow model of a pandas DataFrame with object-dtype columns:
named columns and a list of rows. -/

structure DataFrame where
  cols : List String
  rows : List Row
deriving Repr, DecidableEq

/-- Index of a column name in the frame header (pandas column lookup). -/

def colIdx (df : DataFrame) (c : String) : Option Nat :=
  df.cols.findIdx? (fun x => x == c)

/-- Cell of a row at column index `i` (missing cells read as null). -/

def cellAt (r : Row) (i : Nat) : Cell :=
  (r.get? i).getD none

/-- The column `c` of `df` as a list of cells, i.e. the series `df[c]`.
Empty when the column is absent (the callers validate existence first). -/

def getCol (df : DataFrame) (c : String) : List Cell :=
  match colIdx df c with
  | some i => df.rows.map (fun r => cellAt r i)
  | none => []

/-- `series.dropna()`: the non-null values of a column. -/

def dropna (vs : List Cell) : List String :=
  vs.filterMap id

/-- `str(x)` on a cell: pandas `astype(str)` renders NaN as the string
literal nan. -/

def cellToStr (v : Cell) : String :=
  match v with
  | none => "nan"
  | some s => s

/-- Python `str.lower()`, computed character-wise (executable in the
kernel, unlike `String.toLower`). -/

def strLower (s : String) : String :=
  String.mk (s.toList.map Char.toLower)

/-- `series.astype(str).str.lower()` applied to one cell. -/

def cellLower (v : Cell) : String :=
  strLower (cellToStr v)

/-- `series.isin(other_series)` membership for one cell: pandas `isin`
matches NaN against NaN, which plain `Option` equality mirrors. -/

def seriesIsin (v : Cell) (vs : List Cell) : Bool :=
  vs.contains v

/-- Membership of a cell in a set of (non-null) strings, as produced by
`isin(lookup_set)` after a `dropna`-built set: a null cell never matches. -/

def valIsinSet (v : Cell) (s : List String) : Bool :=
  match v with
  | none => false
  | some x => s.contains x

/-- Errors the engine raises: `InterruptedError` on cancellation and
`ValueError` on failed column validation / unknown operation. -/

inductive EngineError where
  | interrupted (msg : String)
  | valueError (msg : String)
deriving Repr, DecidableEq

/-- `OperationResult` (src/models/data_models.py) restricted to the fields
the claims mention; timing and summary strings are elided. -/

structure OperationResult where
  result_data : DataFrame
  original_count : Nat
  result_count : Nat
  operation_type : String
deriving Repr, DecidableEq

/-- `ComparisonEngine.validate_column_compatibility`: fails when a column is
missing or is non-empty yet entirely null.  For the object-dtype frames of
this model both columns sit in the string dtype group, so the dtype-group
comparison of the source always succeeds. -/

def validateColumnCompatibility (df1 df2 : DataFrame) (c1 c2 : String) :
    Bool × String :=
  if (colIdx df1 c1).isNone then
    (false, s!"Column not found in first file: {c1}")
  else if (colIdx df2 c2).isNone then
    (false, s!"Column not found in second file: {c2}")
  else if df1.rows.length > 0 && (getCol df1 c1).all (fun v => v.isNone) then
    (false, s!"Column in first file contains only null values: {c1}")
  else if df2.rows.length > 0 && (getCol df2 c2).all (fun v => v.isNone) then
    (false, s!"Column in second file contains only null values: {c2}")
  else
    (true, "Columns are compatible")

/-- The matching predicate of the engine's direct masking path:
`df2[col2].isin(df1[col1])` when case-sensitive, and membership of the
lower-cased stringified cell in the lower-cased stringified `df1[col1]`
otherwise (the columns are object dtype, so the string branch is taken). -/

def engineMatches (df1 : DataFrame) (c1 : String) (caseSensitive : Bool)
    (cell : Cell) : Bool :=
  if caseSensitive then
    seriesIsin cell (getCol df1 c1)
  else
    ((getCol df1 c1).map cellLower).contains (cellLower cell)

/-- Rows kept by the direct (non-optimized) path of
`ComparisonEngine.remove_matches`: `df2[~mask]` for the isin mask. -/

def removeMatchesDirectRows (df1 df2 : DataFrame) (c1 c2 : String)
    (caseSensitive : Bool) : List Row :=
  let i2 := (colIdx df2 c2).getD 0
  df2.rows.filter (fun r => !(engineMatches df1 c1 caseSensitive (cellAt r i2)))

/-- Rows kept by the direct path of `ComparisonEngine.keep_only_matches`:
`df2[mask]` for the same isin mask. -/

def keepMatchesDirectRows (df1 df2 : DataFrame) (c1 c2 : String)
    (caseSensitive : Bool) : List Row :=
  let i2 := (colIdx df2 c2).getD 0
  df2.rows.filter (fun r => engineMatches df1 c1 caseSensitive (cellAt r i2))

/-! ### Performance optimizer (src/services/performance_optimizer.py) -/

/-- `series.nunique()`: number of distinct non-null values. -/

def nunique (df : DataFrame) (c : String) : Nat :=
  (dropna (getCol df c)).dedup.length

/-- `_optimize_dataframe` converts an object column to categorical dtype when
`nunique / len < 0.5`; the values are unchanged but the dtype is no longer
`object`, which later disables the case-folding branches. -/

def categorized (df : DataFrame) (c : String) : Bool :=
  2 * nunique df c < df.rows.length

/-- `PerformanceOptimizer._create_optimized_lookup`: the column's non-null
values, lower-cased when case-insensitive and the (post-optimization)
dtype is still `object`. -/

def createOptimizedLookup (df : DataFrame) (c : String) (isObject : Bool)
    (caseSensitive : Bool) : List String :=
  let values := dropna (getCol df c)
  if !caseSensitive && isObject then values.map strLower else values

/-- Matching predicate of the optimized remove/keep operations against the
precomputed lookup set.  When case-insensitive and the column kept object
dtype, the cell is stringified and lower-cased first; a categorized column
skips that conversion (`df[col].dtype == 'object'` is false). -/

def optMatches (lookup : List String) (caseSensitive isObject : Bool)
    (cell : Cell) : Bool :=
  if caseSensitive then
    valIsinSet cell lookup
  else if isObject then
    lookup.contains (cellLower cell)
  else
    valIsinSet cell lookup

/-- `ChunkedProcessor._chunk_dataframe` with `range(0, len(df), chunk_size)`:
contiguous chunks of at most `n+1` rows (the source chunk size constant is
10000; a zero step is not reachable there). -/

def chunksOf : Nat → List Row → List (List Row)
  | _, [] => []
  | 0, rows => [rows]
  | n + 1, r :: rs => (r :: rs).take (n + 1) :: chunksOf (n + 1) ((r :: rs).drop (n + 1))
termination_by _ rows => rows.length
decreasing_by
  simp only [List.length_drop, List.length_cons]
  omega

/-- `ChunkedProcessor.process_dataframe_chunks` specialised to a row filter
(the only process functions used by the optimized operations): small inputs
are filtered directly, larger ones chunk-by-chunk and the pieces are
re-concatenated in order. -/

def processChunksFilter (p : Row → Bool) (rows : List Row) : List Row :=
  if rows.length ≤ 10000 then rows.filter p
  else ((chunksOf 10000 rows).map (fun ch => ch.filter p)).flatten

/-- `PerformanceOptimizer._optimized_remove_matches` on the rows of `df2`. -/

def optimizedRemoveRows (df2 : DataFrame) (c2 : String) (lookup : List String)
    (caseSensitive : Bool) (useChunked : Bool) : List Row :=
  let i2 := (colIdx df2 c2).getD 0
  let isObject := !categorized df2 c2
  let keep := fun r => !(optMatches lookup caseSensitive isObject (cellAt r i2))
  if useChunked then processChunksFilter keep df2.rows
  else df2.rows.filter keep

/-- `PerformanceOptimizer._optimized_keep_matches` on the rows of `df2`. -/

def optimizedKeepRows (df2 : DataFrame) (c2 : String) (lookup : List String)
    (caseSensitive : Bool) (useChunked : Bool) : List Row :=
  let i2 := (colIdx df2 c2).getD 0
  let isObject := !categorized df2 c2
  let keep := fun r => optMatches lookup caseSensitive isObject (cellAt r i2)
  if useChunked then processChunksFilter keep df2.rows
  else df2.rows.filter keep

/-- Re-index one row from its source header onto a target header, filling
absent columns with null — the cell-level behaviour of `pd.concat` over
frames with different columns. -/

def reindexRow (srcCols : List String) (r : Row) (target : List String) : Row :=
  target.map (fun c =>
    match srcCols.findIdx? (fun x => x == c) with
    | some i => cellAt r i
    | none => none)

/-- `pd.concat([a, b], ignore_index=True)`: union of the two headers in
first-frame-first order, rows re-indexed onto it. -/

def concatFrames (a b : DataFrame) : DataFrame :=
  let cols := a.cols ++ b.cols.filter (fun c => !a.cols.contains c)
  { cols := cols
    rows := a.rows.map (fun r => reindexRow a.cols r cols) ++
            b.rows.map (fun r => reindexRow b.cols r cols) }

/-- `df['_source_file'] = tag` on a frame not already carrying that column:
appends the constant column. -/

def tagSource (df : DataFrame) (tag : String) : DataFrame :=
  { cols := df.cols ++ ["_source_file"]
    rows := df.rows.map (fun r => r ++ [some tag]) }

/-- `PerformanceOptimizer._optimized_find_common` (never chunks). -/

def optimizedFindCommon (df1 df2 : DataFrame) (c1 c2 : String)
    (lookup : List String) (caseSensitive : Bool) : DataFrame :=
  let df2Values := dropna (getCol df2 c2)
  let df2Set := if !caseSensitive && !categorized df2 c2 then
      df2Values.map strLower else df2Values
  let commonValues := lookup.filter (fun v => df2Set.contains v)
  let i1 := (colIdx df1 c1).getD 0
  let i2 := (colIdx df2 c2).getD 0
  let mem1 := fun r => optMatches commonValues caseSensitive
    (!categorized df1 c1) (cellAt r i1)
  let mem2 := fun r => optMatches commonValues caseSensitive
    (!categorized df2 c2) (cellAt r i2)
  let df1Common := tagSource { df1 with rows := df1.rows.filter mem1 } "file1"
  let df2Common := tagSource { df2 with rows := df2.rows.filter mem2 } "file2"
  concatFrames df1Common df2Common

/-- `PerformanceOptimizer._optimized_find_unique` (never chunks). -/

def optimizedFindUnique (df1 df2 : DataFrame) (c1 c2 : String)
    (lookup : List String) (caseSensitive : Bool) : DataFrame :=
  let df2Values := dropna (getCol df2 c2)
  let df2Set := if !caseSensitive && !categorized df2 c2 then
      df2Values.map strLower else df2Values
  let uniqueToDf1 := lookup.filter (fun v => !df2Set.contains v)
  let uniqueToDf2 := df2Set.filter (fun v => !lookup.contains v)
  let i1 := (colIdx df1 c1).getD 0
  let i2 := (colIdx df2 c2).getD 0
  let mem1 := fun r => optMatches uniqueToDf1 caseSensitive
    (!categorized df1 c1) (cellAt r i1)
  let mem2 := fun r => optMatches uniqueToDf2 caseSensitive
    (!categorized df2 c2) (cellAt r i2)
  let df1Unique := tagSource { df1 with rows := df1.rows.filter mem1 } "file1"
  let df2Unique := tagSource { df2 with rows := df2.rows.filter mem2 } "file2"
  concatFrames df1Unique df2Unique

/-- `PerformanceOptimizer.optimize_comparison_operation`: optimize both
frames' comparison columns, build the lookup set from `df1`, and dispatch on
the operation name; chunking applies (to remove/keep) when
`total_rows > 50000`.  Unknown operations raise `ValueError`. -/

def optimizeComparisonOperation (df1 df2 : DataFrame) (c1 c2 : String)
    (operation : String) (caseSensitive : Bool) :
    Except EngineError DataFrame :=
  let lookup := createOptimizedLookup df1 c1 (!categorized df1 c1) caseSensitive
  let totalRows := df1.rows.length + df2.rows.length
  let useChunked := totalRows > 50000
  if operation == "remove_matches" then
    .ok { df2 with rows := optimizedRemoveRows df2 c2 lookup caseSensitive useChunked }
  else if operation == "keep_matches" then
    .ok { df2 with rows := optimizedKeepRows df2 c2 lookup caseSensitive useChunked }
  else if operation == "find_common" then
    .ok (optimizedFindCommon df1 df2 c1 c2 lookup caseSensitive)
  else if operation == "find_unique" then
    .ok (optimizedFindUnique df1 df2 c1 c2 lookup caseSensitive)
  else
    .error (.valueError s!"Unknown operation: {operation}")

/-! ### Comparison engine operations (src/services/comparison_engine.py)

Each operation is a method on the engine whose state is the `cancelled`
flag, passed here explicitly.  `hasCallback` models whether a progress
callback was supplied — together with the 10000-row threshold it selects
the optimizer path in `remove_matches` / `keep_only_matches`. -/

/-- `ComparisonEngine.remove_matches`. -/

def removeMatches (cancelled hasCallback : Bool) (df1 df2 : DataFrame)
    (c1 c2 : String) (caseSensitive : Bool) :
    Except EngineError OperationResult :=
  let originalCount := df2.rows.length
  if cancelled then .error (.interrupted "Operation was cancelled")
  else
    match validateColumnCompatibility df1 df2 c1 c2 with
    | (false, msg) => .error (.valueError s!"Column compatibility error: {msg}")
    | (true, _) =>
      let totalRows := df1.rows.length + df2.rows.length
      let resultDf : Except EngineError DataFrame :=
        if totalRows > 10000 && hasCallback then
          optimizeComparisonOperation df1 df2 c1 c2 "remove_matches" caseSensitive
        else
          .ok { df2 with rows := removeMatchesDirectRows df1 df2 c1 c2 caseSensitive }
      resultDf.map (fun rdf =>
        { result_data := rdf
          original_count := originalCount
          result_count := rdf.rows.length
          operation_type := "remove_matches" })

/-- `ComparisonEngine.keep_only_matches`. -/

def keepOnlyMatches (cancelled hasCallback : Bool) (df1 df2 : DataFrame)
    (c1 c2 : String) (caseSensitive : Bool) :
    Except EngineError OperationResult :=
  let originalCount := df2.rows.length
  if cancelled then .error (.interrupted "Operation was cancelled")
  else
    match validateColumnCompatibility df1 df2 c1 c2 with
    | (false, msg) => .error (.valueError s!"Column compatibility error: {msg}")
    | (true, _) =>
      let totalRows := df1.rows.length + df2.rows.length
      let resultDf : Except EngineError DataFrame :=
        if totalRows > 10000 && hasCallback then
          optimizeComparisonOperation df1 df2 c1 c2 "keep_matches" caseSensitive
        else
          .ok { df2 with rows := keepMatchesDirectRows df1 df2 c1 c2 caseSensitive }
      resultDf.map (fun rdf =>
        { result_data := rdf
          original_count := originalCount
          result_count := rdf.rows.length
          operation_type := "keep_only_matches" })

/-- `ComparisonEngine._prepare_comparison_values` for one column of an
object-dtype frame: drop nulls, then lower-case when case-insensitive.
(The source returns native sets; list membership is used here, which agrees
with set membership.) -/

def prepareValues (df : DataFrame) (c : String) (caseSensitive : Bool) :
    List String :=
  let values := dropna (getCol df c)
  if caseSensitive then values else values.map strLower

/-- Membership predicate used by `find_common_values` / `find_unique_values`
on one frame: for case-insensitive object columns the series is stringified
and lower-cased before the `isin` test. -/

def findMatches (vals : List String) (caseSensitive : Bool) (cell : Cell) :
    Bool :=
  if caseSensitive then valIsinSet cell vals
  else vals.contains (cellLower cell)

/-- `ComparisonEngine.find_common_values`: rows of both frames whose column
value lies in the intersection of the prepared value sets, each side tagged
with its source file and concatenated.  The method never consults the
engine's `cancelled` flag, so the parameter is unused. -/

def findCommonValues (cancelled : Bool) (df1 df2 : DataFrame)
    (c1 c2 : String) (caseSensitive : Bool) :
    Except EngineError OperationResult :=
  let _ := cancelled
  let originalCount := df1.rows.length + df2.rows.length
  match validateColumnCompatibility df1 df2 c1 c2 with
  | (false, msg) => .error (.valueError s!"Column compatibility error: {msg}")
  | (true, _) =>
    let values1 := prepareValues df1 c1 caseSensitive
    let values2 := prepareValues df2 c2 caseSensitive
    let commonValues := values1.filter (fun v => values2.contains v)
    let i1 := (colIdx df1 c1).getD 0
    let i2 := (colIdx df2 c2).getD 0
    let rows1 := df1.rows.filter
      (fun r => findMatches commonValues caseSensitive (cellAt r i1))
    let rows2 := df2.rows.filter
      (fun r => findMatches commonValues caseSensitive (cellAt r i2))
    let df1Common := tagSource { df1 with rows := rows1 } "file1"
    let df2Common := tagSource { df2 with rows := rows2 } "file2"
    let resultDf := concatFrames df1Common df2Common
    .ok { result_data := resultDf
          original_count := originalCount
          result_count := resultDf.rows.length
          operation_type := "find_common_values" }

/-- `ComparisonEngine.find_unique_values`: rows of each frame whose column
value belongs only to that frame's prepared value set, tagged and
concatenated.  Like `find_common_values` it never consults `cancelled`. -/

def findUniqueValues (cancelled : Bool) (df1 df2 : DataFrame)
    (c1 c2 : String) (caseSensitive : Bool) :
    Except EngineError OperationResult :=
  let _ := cancelled
  let originalCount := df1.rows.length + df2.rows.length
  match validateColumnCompatibility df1 df2 c1 c2 with
  | (false, msg) => .error (.valueError s!"Column compatibility error: {msg}")
  | (true, _) =>
    let values1 := prepareValues df1 c1 caseSensitive
    let values2 := prepareValues df2 c2 caseSensitive
    let uniqueToDf1 := values1.filter (fun v => !values2.contains v)
    let uniqueToDf2 := values2.filter (fun v => !values1.contains v)
    let i1 := (colIdx df1 c1).getD 0
    let i2 := (colIdx df2 c2).getD 0
    let rows1 := df1.rows.filter
      (fun r => findMatches uniqueToDf1 caseSensitive (cellAt r i1))
    let rows2 := df2.rows.filter
      (fun r => findMatches uniqueToDf2 caseSensitive (cellAt r i2))
    let df1Unique := tagSource { df1 with rows := rows1 } "file1"
    let df2Unique := tagSource { df2 with rows := rows2 } "file2"
    let resultDf := concatFrames df1Unique df2Unique
    .ok { result_data := resultDf
          original_count := originalCount
          result_count := resultDf.rows.length
          operation_type := "find_unique_values" }

/-- `PerformanceOptimizer.estimate_processing_time`, with the source's float
arithmetic carried out exactly over the rationals: per-operation base rate,
slowdown factors at the 100000- and 500000-row thresholds, and a one-second
floor. -/

def estimateProcessingTime (len1 len2 : Nat) (operation : String) : ℚ :=
  let totalRows : ℚ := (len1 + len2 : Nat)
  let baseRates : List (String × ℚ) :=
    [("remove_matches", 100000), ("keep_matches", 100000),
     ("find_common", 80000), ("find_unique", 80000)]
  let baseRate := (baseRates.lookup operation).getD 50000
  let baseRate := if totalRows > 100000 then baseRate * (8 / 10) else baseRate
  let baseRate := if totalRows > 500000 then baseRate * (6 / 10) else baseRate
  max 1 (totalRows / baseRate)

/-! ### Results panel pagination (src/gui/results_panel.py) -/

/-- The pagination-relevant state of `ResultsPanel`. -/

structure ResultsPanelState where
  currentPage : Nat
  rowsPerPage : Nat
  totalPages : Nat
  totalRows : Nat
deriving Repr, DecidableEq

/-- `ResultsPanel.display_results`: reset to page 0 and recompute
`total_pages = max(1, (total_rows + rows_per_page - 1) // rows_per_page)`. -/

def displayResults (rowsPerPage totalRows : Nat) : ResultsPanelState :=
  { currentPage := 0
    rowsPerPage := rowsPerPage
    totalPages := max 1 ((totalRows + rowsPerPage - 1) / rowsPerPage)
    totalRows := totalRows }

/-- `_update_table_display` page bounds: `start_idx = page * rows_per_page`,
`end_idx = min(start_idx + rows_per_page, len(df))`; the visible rows are
the 1-based positions `start_idx + 1 .. end_idx`. -/

def pageBounds (s : ResultsPanelState) : Nat × Nat :=
  let startIdx := s.currentPage * s.rowsPerPage
  (startIdx, min (startIdx + s.rowsPerPage) s.totalRows)

/-- `_update_pagination_buttons`: the Previous button is enabled iff
`current_page > 0`. -/

def prevEnabled (s : ResultsPanelState) : Bool :=
  s.currentPage > 0

/-- `_update_pagination_buttons`: the Next button is enabled iff
`current_page < total_pages - 1`. -/

def nextEnabled (s : ResultsPanelState) : Bool :=
  s.currentPage < s.totalPages - 1

/-- `ResultsPanel._next_page`: advance when not on the last page. -/

def nextPage (s : ResultsPanelState) : ResultsPanelState :=
  if s.currentPage < s.totalPages - 1 then
    { s with currentPage := s.currentPage + 1 }
  else s

/-! ### Export service (src/services/export_service.py)

The filesystem side of `validate_file_path` (directory creation, write
permissions) is environment-dependent and modelled as succeeding; the
checks below are the pure input validations that precede any write. -/

/-- Outcome of an export call: either the target file was written by the
final `to_csv` / `to_excel` call, or a wrapped exception was raised first. -/

inductive ExportOutcome where
  | wrote (path : String)
  | raised (msg : String)
deriving Repr, DecidableEq

/-- Split a character list at slashes (the separator groups of a POSIX
path), keeping empty groups. -/

def splitOnSlash : List Char → List (List Char)
  | [] => [[]]
  | c :: cs =>
    match splitOnSlash cs with
    | [] => [[]]
    | g :: gs => if c = '/' then [] :: g :: gs else (c :: g) :: gs

/-- `Path(file_path).name`: the final non-empty path component. -/

def pathName (p : String) : String :=
  String.mk (((splitOnSlash p.toList).filter (fun g => g ≠ [])).getLast?.getD [])

/-- `Path(file_path).suffix`: from the last dot of the name, provided that
dot is neither the first nor the last character of the name. -/

def pathSuffix (p : String) : String :=
  let cs := (pathName p).toList
  let dotIdxs := (cs.enum.filter (fun q => q.2 = '.')).map (fun q => q.1)
  match dotIdxs.getLast? with
  | some i => if 0 < i && i + 1 < cs.length then String.mk (cs.drop i) else ""
  | none => ""

/-- `ExportService._validate_export_inputs`: non-empty data, supported
format, non-empty path, and an extension matching the format
(`.csv` for csv; `.xlsx`/`.xls` for excel).  Returns the error message of
the first failing check, if any. -/

def validateExportInputs (data : DataFrame) (filePath : String)
    (formatType : String) : Option String :=
  if data.rows.isEmpty || data.cols.isEmpty then
    some "Cannot export empty DataFrame"
  else if !(["csv", "excel"].contains formatType) then
    some s!"Unsupported format: {formatType}"
  else if filePath = "" then
    some "File path must be a non-empty string"
  else if formatType == "csv" &&
      !([".csv"].contains (strLower (pathSuffix filePath))) then
    some "CSV format requires .csv file extension"
  else if formatType == "excel" &&
      !([".xlsx", ".xls"].contains (strLower (pathSuffix filePath))) then
    some "Excel format requires .xlsx or .xls file extension"
  else
    none

/-- `ExportService.export_to_csv`: validation runs first; only when it
passes does `data.to_csv(file_path, ...)` write the target.  A validation
failure is wrapped and re-raised before any write. -/

def exportToCsv (data : DataFrame) (filePath : String) : ExportOutcome :=
  match validateExportInputs data filePath "csv" with
  | some msg => .raised s!"Failed to export CSV file: {msg}"
  | none => .wrote filePath

/-- `ExportService.export_to_excel`: the same shape with the excel format
and `data.to_excel`. -/

def exportToExcel (data : DataFrame) (filePath : String) : ExportOutcome :=
  match validateExportInputs data filePath "excel" with
  | some msg => .raised s!"Failed to export Excel file: {msg}"
  | none => .wrote filePath

/-! ### Error handler retry dialog (src/services/error_handler.py) -/

/-- `ErrorHandler.max_retries` (set in `__init__`). -/

def maxRetries : Nat := 3

/-- The `retry_counts` dictionary, keyed by context string. -/

abbrev RetryCounts := List (String × Nat)

/-- `self.retry_counts.get(context, 0)`. -/

def getCount (m : RetryCounts) (ctx : String) : Nat :=
  (m.lookup ctx).getD 0

/-- `self.retry_counts[context] = n`. -/

def setCount (m : RetryCounts) (ctx : String) (n : Nat) : RetryCounts :=
  (ctx, n) :: m.filter (fun q => q.1 ≠ ctx)

/-- Dialogs a `_show_retry_dialog` call can put up: the yes/no retry prompt
showing the attempt number, or the terminal maximum-retries error box. -/

inductive RetryEvent where
  | retryPrompt (attempt : Nat)
  | maxRetriesDialog
deriving Repr, DecidableEq

/-- `ErrorHandler._show_retry_dialog` for a retry callback that returns
normally (`userAgrees` is the yes/no answer, `callbackSucceeds` the
truthiness of the callback's return value).  At or above the cap the
terminal dialog is shown and no retry is offered; below it the prompt for
attempt `count + 1` is shown, the per-context counter is bumped on yes and
reset to zero on success or on a declined retry. -/

def showRetryDialog (counts : RetryCounts) (ctx : String)
    (userAgrees callbackSucceeds : Bool) : RetryCounts × RetryEvent × Bool :=
  let rc := getCount counts ctx
  if rc ≥ maxRetries then
    (counts, .maxRetriesDialog, false)
  else if userAgrees then
    let counts1 := setCount counts ctx (rc + 1)
    if callbackSucceeds then (setCount counts1 ctx 0, .retryPrompt (rc + 1), true)
    else (counts1, .retryPrompt (rc + 1), false)
  else
    (setCount counts ctx 0, .retryPrompt (rc + 1), false)

/-- The claimed scenario: the same context fails `n` consecutive times
through the retry dialog (the user always agrees, the callback keeps
failing); collects the dialog shown at each attempt. -/

def retrySequence (ctx : String) : Nat → RetryCounts → List RetryEvent
  | 0, _ => []
  | n + 1, counts =>
    let step := showRetryDialog counts ctx true false
    step.2.1 :: retrySequence ctx n step.1

/-! ### CSV parsing with encoding fallback
(src/services/file_parser_service.py) -/

/-- Outcome of one `pd.read_csv(file_path, encoding=e, on_bad_lines='skip')`
attempt: a parsed frame (malformed rows already skipped by the reader), a
`UnicodeDecodeError`, or any other reader exception. -/

inductive CsvAttempt where
  | parsed (df : DataFrame)
  | decodeError (msg : String)
  | otherError (msg : String)

/-- `FileParsingError`. -/

inductive ParseError where
  | fileParsing (msg : String)
deriving Repr, DecidableEq

/-- `self._encoding_fallbacks` as initialised in `__init__`. -/

def encodingFallbacks : List String :=
  ["utf-8", "latin-1", "cp1252", "iso-8859-1"]

/-- The encoding loop of `FileParserService._parse_csv`: decode errors move
on to the next encoding remembering the last one; an empty parsed frame or
any other reader error is wrapped and raised immediately; running out of
encodings raises with the last decode error attached. -/

def parseCsvLoop (attempt : String → CsvAttempt) :
    List String → Option String → Except ParseError DataFrame
  | [], lastError =>
    .error (.fileParsing
      ("Failed to parse CSV file with any supported encoding. Last error: " ++
        lastError.getD "None"))
  | enc :: rest, _lastError =>
    match attempt enc with
    | .parsed df =>
      if df.rows.isEmpty || df.cols.isEmpty then
        .error (.fileParsing
          "Failed to parse CSV file: CSV file is empty or contains no valid data")
      else .ok df
    | .decodeError msg => parseCsvLoop attempt rest (some msg)
    | .otherError msg =>
      .error (.fileParsing s!"Failed to parse CSV file: {msg}")

/-- `FileParserService._parse_csv`. -/

def parseCsv (attempt : String → CsvAttempt) : Except ParseError DataFrame :=
  parseCsvLoop attempt encodingFallbacks none

/-! ### Controller workflow state machine
(src/controllers/main_controller.py) -/

/-- `WorkflowState` enum values 0..3. -/

inductive WorkflowState where
  | FILE_SELECTION
  | COLUMN_MAPPING
  | OPERATION_CONFIG
  | RESULTS
deriving Repr, DecidableEq

/-- The enum's integer value. -/

def WorkflowState.val : WorkflowState → Nat
  | .FILE_SELECTION => 0
  | .COLUMN_MAPPING => 1
  | .OPERATION_CONFIG => 2
  | .RESULTS => 3

/-- `WorkflowState(value)` for values 0..3. -/

def WorkflowState.ofVal : Nat → WorkflowState
  | 0 => .FILE_SELECTION
  | 1 => .COLUMN_MAPPING
  | 2 => .OPERATION_CONFIG
  | _ => .RESULTS

/-- The controller state that gates navigation: the current workflow state,
whether each of `workflow_data['file1_info']` / `['file2_info']` is set,
and whether the mapping and configuration panels report complete input. -/

structure ControllerState where
  currentState : WorkflowState
  file1Selected : Bool
  file2Selected : Bool
  columnsSelected : Bool
  operationSelected : Bool
deriving Repr, DecidableEq

/-- `MainController._validate_file_selection`: both file infos must be
present, otherwise a validation error dialog is shown. -/

def validateFileSelection (s : ControllerState) : Bool × List String :=
  if !(s.file1Selected && s.file2Selected) then
    (false, ["Please select both files before proceeding."])
  else (true, [])

/-- `MainController._validate_column_mapping` (panel present and queried). -/

def validateColumnMapping (s : ControllerState) : Bool × List String :=
  if !s.columnsSelected then
    (false, ["Please select columns from both files."])
  else (true, [])

/-- `MainController._validate_operation_config` (panel present). -/

def validateOperationConfig (s : ControllerState) : Bool × List String :=
  if !s.operationSelected then
    (false, ["Please select a comparison operation."])
  else (true, [])

/-- `MainController._validate_current_step`: dispatch to the current step's
validator; the results step is always valid. -/

def validateCurrentStep (s : ControllerState) : Bool × List String :=
  match s.currentState with
  | .FILE_SELECTION => validateFileSelection s
  | .COLUMN_MAPPING => validateColumnMapping s
  | .OPERATION_CONFIG => validateOperationConfig s
  | .RESULTS => (true, [])

/-- `MainController._validate_workflow_transition` for a forward move:
refuse from the final state, then re-run the current step's validator. -/

def validateForwardTransition (s : ControllerState) : Bool × List String :=
  if s.currentState.val ≥ 3 then (false, [])
  else
    match s.currentState with
    | .FILE_SELECTION => validateFileSelection s
    | .COLUMN_MAPPING => validateColumnMapping s
    | .OPERATION_CONFIG => validateOperationConfig s
    | .RESULTS => (true, [])

/-- `MainController._handle_next_step`: returns the new controller state and
the validation-error dialogs shown.  Step validation runs first, then the
transition validation, then the state advances by exactly one enum value.
(The `_prepare_operation_config` / `_execute_comparison` hooks fired on the
mapping and configuration transitions update workflow data, not
`current_state`, and are omitted.) -/

def handleNextStep (s : ControllerState) : ControllerState × List String :=
  let v1 := validateCurrentStep s
  if !v1.1 then (s, v1.2)
  else
    let v2 := validateForwardTransition s
    if !v2.1 then (s, v1.2 ++ v2.2)
    else if s.currentState.val < 3 then
      ({ s with currentState := WorkflowState.ofVal (s.currentState.val + 1) },
        v1.2 ++ v2.2)
    else (s, v1.2 ++ v2.2)

/-! ### Concrete example frames used by witnesses -/

/-- First example frame: one comparison column with values a, b, c. -/

def exDf1 : DataFrame := ⟨["col"], [[some "a"], [some "b"], [some "c"]]⟩

/-- Second example frame: one comparison column with values a, d, c, e. -/

def exDf2 : DataFrame := ⟨["col"], [[some "a"], [some "d"], [some "c"], [some "e"]]⟩

/-- The result `remove_matches` produces on the example frames. -/

def exRemoveRes : OperationResult :=
  ⟨⟨["col"], [[some "d"], [some "e"]]⟩, 4, 2, "remove_matches"⟩

/-- The result `keep_only_matches` produces on the example frames. -/

def exKeepRes : OperationResult :=
  ⟨⟨["col"], [[some "a"], [some "c"]]⟩, 4, 2, "keep_only_matches"⟩

/-- A first frame large enough to cross the engine's 10000-row optimizer
threshold: a null in its comparison column followed by 10001 copies of x. -/

def bigDf1 : DataFrame := ⟨["k"], [none] :: List.replicate 10001 [some "x"]⟩

/-- A second frame with a null row and a y row in the comparison column. -/

def smallDf2 : DataFrame := ⟨["k"], [[none], [some "y"]]⟩

/-- A per-encoding read oracle for the CSV-fallback witness: utf-8 fails
with a decode error, every later encoding parses a one-cell table. -/

def exAttempt : String → CsvAttempt := fun enc =>
  if enc = "utf-8" then .decodeError "utf-8 codec cannot decode byte 0x92"
  else .parsed ⟨["a"], [[some "1"]]⟩

/-! ### Helper lemmas -/

/-- Membership and `List.contains` agree (lawful `BEq`). -/

theorem contains_iff_mem {α : Type} [BEq α] [LawfulBEq α] (l : List α) (a : α) :
    l.contains a = true ↔ a ∈ l := by
  simp [List.contains, List.elem_iff]

/-- Filtering by a predicate and by its negation partitions the length. -/

theorem length_filter_not_add_length_filter {α : Type} (l : List α)
    (p : α → Bool) :
    (l.filter (fun a => !p a)).length + (l.filter p).length = l.length := by
  induction l with
  | nil => rfl
  | cons a t ih =>
    by_cases h : p a = true <;> simp [List.filter_cons, h] <;> omega

/-- The concatenation of the chunks is the original list. -/

theorem chunksOf_flatten (n : Nat) (rows : List Row) :
    (chunksOf n rows).flatten = rows := by
  induction n, rows using chunksOf.induct with
  | case1 n => simp [chunksOf]
  | case2 rows => simp [chunksOf]
  | case3 n r rs ih =>
    rw [List.drop_succ_cons] at ih
    simp only [chunksOf, List.flatten_cons, List.drop_succ_cons,
      List.take_succ_cons, ih, List.cons_append, List.take_append_drop]

/-- Filtering the pieces of a partition and flattening agrees with filtering
the flattened list. -/

theorem flatten_map_filter {α : Type} (p : α → Bool) (chs : List (List α)) :
    (chs.map (fun ch => ch.filter p)).flatten = chs.flatten.filter p := by
  induction chs with
  | nil => rfl
  | cons c t ih => simp only [List.map_cons, List.flatten_cons,
      List.filter_append, ih]

/-- Filtering chunk by chunk agrees with filtering the whole list, hence the
chunked branch of `processChunksFilter` computes the same rows. -/

theorem processChunksFilter_eq_filter (p : Row → Bool) (rows : List Row) :
    processChunksFilter p rows = rows.filter p := by
  unfold processChunksFilter
  split
  · rfl
  · rw [flatten_map_filter, chunksOf_flatten]

/-- With no progress callback the engine's `remove_matches` takes the direct
masking path; a successful call returns exactly the filtered frame together
with the baseline and result counts. -/

theorem removeMatches_ok_direct (df1 df2 : DataFrame) (c1 c2 : String)
    (cs : Bool) (res : OperationResult)
    (h : removeMatches false false df1 df2 c1 c2 cs = .ok res) :
    res = { result_data := { df2 with rows := removeMatchesDirectRows df1 df2 c1 c2 cs }
            original_count := df2.rows.length
            result_count := (removeMatchesDirectRows df1 df2 c1 c2 cs).length
            operation_type := "remove_matches" } := by
  unfold removeMatches at h
  simp only [Bool.false_eq_true, if_false, Bool.and_false] at h
  rcases hv : validateColumnCompatibility df1 df2 c1 c2 with ⟨b, m⟩
  rw [hv] at h
  cases b with
  | false => simp at h
  | true =>
    simp only [if_false, Except.map] at h
    exact (Except.ok.injEq .. ▸ h).symm

/-- The analogue for `keep_only_matches`. -/

theorem keepOnlyMatches_ok_direct (df1 df2 : DataFrame) (c1 c2 : String)
    (cs : Bool) (res : OperationResult)
    (h : keepOnlyMatches false false df1 df2 c1 c2 cs = .ok res) :
    res = { result_data := { df2 with rows := keepMatchesDirectRows df1 df2 c1 c2 cs }
            original_count := df2.rows.length
            result_count := (keepMatchesDirectRows df1 df2 c1 c2 cs).length
            operation_type := "keep_only_matches" } := by
  unfold keepOnlyMatches at h
  simp only [Bool.false_eq_true, if_false, Bool.and_false] at h
  rcases hv : validateColumnCompatibility df1 df2 c1 c2 with ⟨b, m⟩
  rw [hv] at h
  cases b with
  | false => simp at h
  | true =>
    simp only [if_false, Except.map] at h
    exact (Except.ok.injEq .. ▸ h).symm

/-- C1: `remove_matches` (case-sensitive, direct path) removes from df2
exactly the rows whose comparison-column value appears among df1's values,
keeps their order, reports `original_count = len(df2)`; on the concrete
frames with df1 values a, b, c and df2 values a, d, c, e it returns the
rows d, e in order with `result_count = 2` and `original_count = 4`. -/

theorem remove_matches_filters_df2 :
    (∀ (df1 df2 : DataFrame) (c1 c2 : String) (i2 : Nat)
       (res : OperationResult),
      removeMatches false false df1 df2 c1 c2 true = .ok res →
      colIdx df2 c2 = some i2 →
      res.original_count = df2.rows.length ∧
      res.result_count = res.result_data.rows.length ∧
      (∀ r : Row, r ∈ res.result_data.rows ↔
        (r ∈ df2.rows ∧ ¬ cellAt r i2 ∈ getCol df1 c1))) ∧
    removeMatches false false exDf1 exDf2 "col" "col" true = .ok exRemoveRes := by
  constructor
  · intro df1 df2 c1 c2 i2 res h hidx
    have he := removeMatches_ok_direct df1 df2 c1 c2 true res h
    subst he
    refine ⟨rfl, rfl, fun r => ?_⟩
    simp [removeMatchesDirectRows, hidx, List.mem_filter, engineMatches,
      seriesIsin, contains_iff_mem]
  · rfl

/-- C1 witness: the general part applied at the concrete frames. -/

theorem remove_matches_filters_df2_witness :
    removeMatches false false exDf1 exDf2 "col" "col" true = .ok exRemoveRes ∧
    colIdx exDf2 "col" = some 0 ∧
    exRemoveRes.original_count = exDf2.rows.length ∧
    exRemoveRes.result_count = exRemoveRes.result_data.rows.length ∧
    (([some "d"] : Row) ∈ exRemoveRes.result_data.rows ↔
      (([some "d"] : Row) ∈ exDf2.rows ∧
        ¬ cellAt [some "d"] 0 ∈ getCol exDf1 "col")) := by
  have h := remove_matches_filters_df2.1 exDf1 exDf2 "col" "col" 0 exRemoveRes
    (by rfl) (by rfl)
  exact ⟨by rfl, by rfl, h.1, h.2.1, h.2.2 [some "d"]⟩

/-- C9: on the direct path, `remove_matches` and `keep_only_matches`
partition df2: the result counts add up to `len(df2)` and every df2 row
lands in exactly one of the two results. -/

theorem remove_keep_partition :
    ∀ (df1 df2 : DataFrame) (c1 c2 : String) (cs : Bool)
      (rem keep : OperationResult),
      removeMatches false false df1 df2 c1 c2 cs = .ok rem →
      keepOnlyMatches false false df1 df2 c1 c2 cs = .ok keep →
      rem.result_count + keep.result_count = df2.rows.length ∧
      ∀ r ∈ df2.rows,
        (r ∈ rem.result_data.rows ↔ ¬ r ∈ keep.result_data.rows) := by
  intro df1 df2 c1 c2 cs rem keep h1 h2
  have e1 := removeMatches_ok_direct df1 df2 c1 c2 cs rem h1
  have e2 := keepOnlyMatches_ok_direct df1 df2 c1 c2 cs keep h2
  subst e1
  subst e2
  constructor
  · simpa [removeMatchesDirectRows, keepMatchesDirectRows] using
      length_filter_not_add_length_filter df2.rows
        (fun r => engineMatches df1 c1 cs (cellAt r ((colIdx df2 c2).getD 0)))
  · intro r hr
    simp [removeMatchesDirectRows, keepMatchesDirectRows, List.mem_filter, hr]

/-- C9 witness: the partition at the concrete example frames. -/

theorem remove_keep_partition_witness :
    removeMatches false false exDf1 exDf2 "col" "col" true = .ok exRemoveRes ∧
    keepOnlyMatches false false exDf1 exDf2 "col" "col" true = .ok exKeepRes ∧
    exRemoveRes.result_count + exKeepRes.result_count = exDf2.rows.length ∧
    (([some "d"] : Row) ∈ exRemoveRes.result_data.rows ↔
      ¬ ([some "d"] : Row) ∈ exKeepRes.result_data.rows) := by
  have h := remove_keep_partition exDf1 exDf2 "col" "col" true
    exRemoveRes exKeepRes (by rfl) (by rfl)
  exact ⟨by rfl, by rfl, h.1, h.2 [some "d"] (by decide)⟩

/-- C10: `find_common_values` and `find_unique_values` never observe the
cancellation flag — on validated inputs they return an `OperationResult`
even when cancelled, and their output is flag-independent — whereas
`remove_matches` and `keep_only_matches` raise `InterruptedError` at entry
when the flag is set. -/

theorem find_ops_ignore_cancellation :
    ∀ (df1 df2 : DataFrame) (c1 c2 : String) (cs : Bool),
      (validateColumnCompatibility df1 df2 c1 c2).1 = true →
      (findCommonValues true df1 df2 c1 c2 cs).isOk = true ∧
      (findUniqueValues true df1 df2 c1 c2 cs).isOk = true ∧
      (∀ b, findCommonValues b df1 df2 c1 c2 cs =
        findCommonValues false df1 df2 c1 c2 cs) ∧
      (∀ b, findUniqueValues b df1 df2 c1 c2 cs =
        findUniqueValues false df1 df2 c1 c2 cs) ∧
      (∀ hcb, removeMatches true hcb df1 df2 c1 c2 cs =
        .error (.interrupted "Operation was cancelled")) ∧
      (∀ hcb, keepOnlyMatches true hcb df1 df2 c1 c2 cs =
        .error (.interrupted "Operation was cancelled")) := by
  intro df1 df2 c1 c2 cs hv
  rcases h : validateColumnCompatibility df1 df2 c1 c2 with ⟨b, m⟩
  rw [h] at hv
  simp only at hv
  subst hv
  refine ⟨?_, ?_, fun b => rfl, fun b => rfl,
    fun hcb => rfl, fun hcb => rfl⟩
  · unfold findCommonValues
    rw [h]
    rfl
  · unfold findUniqueValues
    rw [h]
    rfl

/-- C10 witness: cancellation behaviour at the concrete example frames. -/

theorem find_ops_ignore_cancellation_witness :
    (validateColumnCompatibility exDf1 exDf2 "col" "col").1 = true ∧
    (findCommonValues true exDf1 exDf2 "col" "col" true).isOk = true ∧
    findCommonValues true exDf1 exDf2 "col" "col" true =
      findCommonValues false exDf1 exDf2 "col" "col" true ∧
    removeMatches true false exDf1 exDf2 "col" "col" true =
      .error (.interrupted "Operation was cancelled") ∧
    keepOnlyMatches true true exDf1 exDf2 "col" "col" true =
      .error (.interrupted "Operation was cancelled") := by
  have h := find_ops_ignore_cancellation exDf1 exDf2 "col" "col" true (by decide)
  exact ⟨by decide, h.1, h.2.2.1 true, h.2.2.2.2.1 false, h.2.2.2.2.2 true⟩

/-! ### C2: the optimized and direct paths diverge -/

/-- `all` over a non-empty replicated list is decided by the element. -/

theorem all_replicate_eq_false {α : Type} (p : α → Bool) (a : α) (n : Nat)
    (hn : n ≠ 0) (h : p a = false) :
    (List.replicate n a).all p = false := by
  cases n with
  | zero => exact absurd rfl hn
  | succ k => simp [List.replicate_succ, h]

/-- `contains` over a replicated list of a different element is false. -/

theorem contains_replicate_eq_false {α : Type} [BEq α] (a b : α) (n : Nat)
    (h : (b == a) = false) :
    (List.replicate n a).contains b = false := by
  induction n with
  | zero => rfl
  | succ k ih => simp only [List.replicate_succ, List.contains_cons, h,
      Bool.false_or, ih]

/-- Dropping nulls from a replicated non-null column. -/

theorem filterMap_id_replicate_some {α : Type} (a : α) (n : Nat) :
    (List.replicate n (some a)).filterMap id = List.replicate n a := by
  induction n with
  | zero => rfl
  | succ k ih => simp [List.replicate_succ, List.filterMap_cons, ih]

/-- The comparison column of `bigDf1`. -/

theorem getCol_bigDf1 :
    getCol bigDf1 "k" = none :: List.replicate 10001 (some "x") := by
  have hidx : colIdx bigDf1 "k" = some 0 := rfl
  simp only [getCol, hidx, bigDf1, List.map_cons, List.map_replicate]
  rfl

/-- `bigDf1` has 10002 rows. -/

theorem bigDf1_length : bigDf1.rows.length = 10002 := by
  show (([none] : Row) :: List.replicate 10001 [some "x"]).length = 10002
  rw [List.length_cons, List.length_replicate]

/-- `bigDf1` and `smallDf2` pass column-compatibility validation. -/

theorem validate_bigDf1_smallDf2 :
    validateColumnCompatibility bigDf1 smallDf2 "k" "k" =
      (true, "Columns are compatible") := by
  have hall : (getCol bigDf1 "k").all (fun v => v.isNone) = false := by
    rw [getCol_bigDf1]
    simp only [List.all_cons, Option.isNone_none, Bool.true_and]
    exact all_replicate_eq_false _ _ _ (by decide) (by decide)
  have h1 : colIdx bigDf1 "k" = some 0 := rfl
  have h2 : colIdx smallDf2 "k" = some 0 := rfl
  have h3 : getCol smallDf2 "k" = [none, some "y"] := rfl
  unfold validateColumnCompatibility
  rw [hall, h1, h2, h3]
  simp

/-- The lookup set the optimizer builds from `bigDf1` (case-sensitive): the
nulls are dropped, leaving 10001 copies of x. -/

theorem lookup_bigDf1 :
    createOptimizedLookup bigDf1 "k" (!categorized bigDf1 "k") true =
      List.replicate 10001 "x" := by
  unfold createOptimizedLookup
  rw [getCol_bigDf1]
  simp only [Bool.not_true, Bool.false_and, if_false, dropna,
    List.filterMap_cons, id_eq]
  exact filterMap_id_replicate_some "x" 10001

/-- The optimizer keeps both rows of `smallDf2`, the null row included,
because its lookup set dropped the null from `bigDf1`. -/

theorem optimize_bigDf1_smallDf2 :
    optimizeComparisonOperation bigDf1 smallDf2 "k" "k" "remove_matches" true =
      .ok ⟨["k"], [[none], [some "y"]]⟩ := by
  have hstr : (List.replicate 10001 "x").contains "y" = false :=
    contains_replicate_eq_false _ _ _ (by decide)
  have hrows : smallDf2.rows = [[none], [some "y"]] := rfl
  have hi2 : colIdx smallDf2 "k" = some 0 := rfl
  simp only [optimizeComparisonOperation]
  rw [lookup_bigDf1, bigDf1_length]
  have hchunk : decide (10002 + smallDf2.rows.length > 50000) = false := rfl
  have hop : (("remove_matches" : String) == "remove_matches") = true := rfl
  rw [hchunk, hop]
  simp only [if_true]
  have hrem : optimizedRemoveRows smallDf2 "k" (List.replicate 10001 "x")
      true false = [[none], [some "y"]] := by
    simp only [optimizedRemoveRows, hi2, Option.getD_some, Bool.false_eq_true,
      if_false, hrows]
    have e1 : optMatches (List.replicate 10001 "x") true
        (!categorized smallDf2 "k") (cellAt [none] 0) = false := rfl
    have e2 : optMatches (List.replicate 10001 "x") true
        (!categorized smallDf2 "k") (cellAt [some "y"] 0) = false := by
      simp only [optMatches, if_true, cellAt, List.get?, Option.getD_some,
        valIsinSet]
      exact hstr
    simp only [List.filter_cons, List.filter_nil, e1, e2, Bool.not_false,
      if_true]
  rw [hrem]
  rfl

/-- C2 fails on the code: on `bigDf1`/`smallDf2` (10004 rows total, above
the 10000-row threshold, with a progress callback) the engine delegates to
the optimizer, whose `dropna`-built lookup set loses the null, so the null
row of df2 is kept — while the direct pandas masking path
(`~df2[col2].isin(df1[col1])`, where NaN matches NaN) removes it.  The two
paths return different row sets on the same input. -/

theorem optimizer_direct_paths_diverge :
    bigDf1.rows.length + smallDf2.rows.length > 10000 ∧
    removeMatches false true bigDf1 smallDf2 "k" "k" true =
      .ok { result_data := { cols := ["k"], rows := [[none], [some "y"]] }
            original_count := 2
            result_count := 2
            operation_type := "remove_matches" } ∧
    removeMatchesDirectRows bigDf1 smallDf2 "k" "k" true = [[some "y"]] := by
  have hcontains :
      (List.replicate 10001 (some "x" : Cell)).contains (some "y") = false :=
    contains_replicate_eq_false _ _ _ (by decide)
  refine ⟨by rw [bigDf1_length]; decide, ?_, ?_⟩
  · unfold removeMatches
    rw [validate_bigDf1_smallDf2]
    simp only [Bool.false_eq_true, if_false, bigDf1_length]
    have hcond : (decide (10002 + smallDf2.rows.length > 10000) && true) = true :=
      rfl
    rw [hcond]
    simp only [if_true, optimize_bigDf1_smallDf2]
    rfl
  · unfold removeMatchesDirectRows
    have hidx : colIdx smallDf2 "k" = some 0 := rfl
    have hrows : smallDf2.rows = [[none], [some "y"]] := rfl
    simp only [hidx, Option.getD_some, hrows]
    have e1 : engineMatches bigDf1 "k" true (cellAt [none] 0) = true := by
      simp only [engineMatches, if_true, seriesIsin, getCol_bigDf1, cellAt,
        List.get?, Option.getD_some, List.contains_cons, beq_self_eq_true,
        Bool.true_or]
    have e2 : engineMatches bigDf1 "k" true (cellAt [some "y"] 0) = false := by
      simp only [engineMatches, if_true, seriesIsin, getCol_bigDf1, cellAt,
        List.get?, Option.getD_some, List.contains_cons]
      rw [hcontains]
      rfl
    simp only [List.filter_cons, List.filter_nil, e1, e2, Bool.not_true,
      Bool.not_false, Bool.false_eq_true, if_false, if_true]

/-! ### C3, C7, C8 -/

/-- C3: `_parse_csv` tries the encodings in the order utf-8, latin-1,
cp1252, iso-8859-1 and returns the table of the first encoding that reads
successfully (each read already skips malformed rows via
`on_bad_lines='skip'`, abstracted inside the per-encoding `attempt`
oracle); when every encoding fails with a decode error it raises
FileParsing carrying the last decode error's message. -/

theorem parse_csv_encoding_fallback :
    encodingFallbacks = ["utf-8", "latin-1", "cp1252", "iso-8859-1"] ∧
    (∀ (attempt : String → CsvAttempt) (df : DataFrame) (m1 m2 m3 m4 : String),
      df.rows ≠ [] → df.cols ≠ [] →
      ((attempt "utf-8" = .parsed df → parseCsv attempt = .ok df) ∧
       (attempt "utf-8" = .decodeError m1 → attempt "latin-1" = .parsed df →
         parseCsv attempt = .ok df) ∧
       (attempt "utf-8" = .decodeError m1 → attempt "latin-1" = .decodeError m2 →
         attempt "cp1252" = .parsed df → parseCsv attempt = .ok df) ∧
       (attempt "utf-8" = .decodeError m1 → attempt "latin-1" = .decodeError m2 →
         attempt "cp1252" = .decodeError m3 → attempt "iso-8859-1" = .parsed df →
         parseCsv attempt = .ok df) ∧
       (attempt "utf-8" = .decodeError m1 → attempt "latin-1" = .decodeError m2 →
         attempt "cp1252" = .decodeError m3 →
         attempt "iso-8859-1" = .decodeError m4 →
         parseCsv attempt = .error (.fileParsing
           ("Failed to parse CSV file with any supported encoding. Last error: "
             ++ m4))))) := by
  refine ⟨rfl, ?_⟩
  intro attempt df m1 m2 m3 m4 hr hc
  have hne : (df.rows.isEmpty || df.cols.isEmpty) = false := by
    rcases h1 : df.rows with _ | _
    · exact absurd h1 hr
    · rcases h2 : df.cols with _ | _
      · exact absurd h2 hc
      · rfl
  refine ⟨fun h1 => ?_, fun h1 h2 => ?_, fun h1 h2 h3 => ?_,
    fun h1 h2 h3 h4 => ?_, fun h1 h2 h3 h4 => ?_⟩
  · simp only [parseCsv, encodingFallbacks, parseCsvLoop, h1,
      hne, Bool.false_eq_true, if_false]
  · simp only [parseCsv, encodingFallbacks, parseCsvLoop, h1, h2,
      hne, Bool.false_eq_true, if_false]
  · simp only [parseCsv, encodingFallbacks, parseCsvLoop, h1, h2, h3,
      hne, Bool.false_eq_true, if_false]
  · simp only [parseCsv, encodingFallbacks, parseCsvLoop, h1, h2, h3, h4,
      hne, Bool.false_eq_true, if_false]
  · simp only [parseCsv, encodingFallbacks, parseCsvLoop, h1, h2, h3, h4,
      Option.getD_some]

/-- C7: `estimate_processing_time` is `max(1, total_rows / rate)` where the
rate is the per-operation base throughput (100000 for remove/keep, 80000
for find_common/find_unique, 50000 otherwise) multiplied by 0.8 above
100000 total rows and by a further 0.6 above 500000, both factors applying
together when both thresholds are crossed. -/

theorem estimate_processing_time_formula :
    ∀ (len1 len2 : Nat) (op : String),
      estimateProcessingTime len1 len2 op =
        max 1 (((len1 + len2 : Nat) : ℚ) /
          ((if op = "remove_matches" ∨ op = "keep_matches" then (100000 : ℚ)
            else if op = "find_common" ∨ op = "find_unique" then 80000
            else 50000) *
           (if ((len1 + len2 : Nat) : ℚ) > 100000 then 8 / 10 else 1) *
           (if ((len1 + len2 : Nat) : ℚ) > 500000 then 6 / 10 else 1))) := by
  intro len1 len2 op
  unfold estimateProcessingTime
  by_cases h1 : op = "remove_matches"
  · subst h1
    rw [if_pos (Or.inl rfl)]
    simp only [List.lookup, beq_self_eq_true, Option.getD_some]
    split_ifs <;> norm_num
  · by_cases h2 : op = "keep_matches"
    · subst h2
      rw [if_pos (Or.inr rfl)]
      simp only [List.lookup,
        (show (("keep_matches" : String) == "remove_matches") = false by decide),
        beq_self_eq_true, Option.getD_some]
      split_ifs <;> norm_num
    · by_cases h3 : op = "find_common"
      · subst h3
        rw [if_neg (by decide), if_pos (Or.inl rfl)]
        simp only [List.lookup,
          (show (("find_common" : String) == "remove_matches") = false by decide),
          (show (("find_common" : String) == "keep_matches") = false by decide),
          beq_self_eq_true, Option.getD_some]
        split_ifs <;> norm_num
      · by_cases h4 : op = "find_unique"
        · subst h4
          rw [if_neg (by decide), if_pos (Or.inr rfl)]
          simp only [List.lookup,
            (show (("find_unique" : String) == "remove_matches") = false by decide),
            (show (("find_unique" : String) == "keep_matches") = false by decide),
            (show (("find_unique" : String) == "find_common") = false by decide),
            beq_self_eq_true, Option.getD_some]
          split_ifs <;> norm_num
        · rw [if_neg (by simp [h1, h2]), if_neg (by simp [h3, h4])]
          simp only [List.lookup,
            (show (op == "remove_matches") = false by simp [h1]),
            (show (op == "keep_matches") = false by simp [h2]),
            (show (op == "find_common") = false by simp [h3]),
            (show (op == "find_unique") = false by simp [h4]),
            Option.getD_none]
          split_ifs <;> norm_num

/-- C8: the retry dialog caps each context at `max_retries = 3` attempts:
with the same context failing four consecutive times (the user agreeing
each time), the first three calls show retry prompts for attempts 1, 2, 3
and the fourth shows the terminal maximum-retries dialog. -/

theorem retry_dialog_cap :
    maxRetries = 3 ∧
    ∀ ctx : String, retrySequence ctx 4 [] =
      [.retryPrompt 1, .retryPrompt 2, .retryPrompt 3, .maxRetriesDialog] := by
  refine ⟨rfl, fun ctx => ?_⟩
  simp [retrySequence, showRetryDialog, getCount, setCount, maxRetries,
    List.lookup]

/-! ### C4: workflow state machine -/

/-- C4: `_handle_next_step` is gated by the current step's validator and
moves at most one enum value forward: from `FILE_SELECTION` with a file
missing the state is unchanged and the validation error dialog is shown;
with both files selected the state becomes `COLUMN_MAPPING`; in general the
state either stays or increments by exactly one, and an increment implies
the step validator passed. -/

theorem workflow_next_step_gated :
    (∀ s : ControllerState, s.currentState = .FILE_SELECTION →
      (s.file1Selected && s.file2Selected) = false →
      (handleNextStep s).1 = s ∧
      (handleNextStep s).2 = ["Please select both files before proceeding."]) ∧
    (∀ s : ControllerState, s.currentState = .FILE_SELECTION →
      s.file1Selected = true → s.file2Selected = true →
      (handleNextStep s).1.currentState = .COLUMN_MAPPING ∧
      (handleNextStep s).2 = []) ∧
    (∀ s : ControllerState,
      (handleNextStep s).1 = s ∨
      ((handleNextStep s).1.currentState.val = s.currentState.val + 1 ∧
       (validateCurrentStep s).1 = true)) := by
  refine ⟨?_, ?_, ?_⟩
  · rintro ⟨st, f1, f2, cm, op⟩ hst hf
    subst hst
    cases f1 <;> cases f2 <;> simp at hf <;>
      simp [handleNextStep, validateCurrentStep, validateFileSelection,
        validateForwardTransition]
  · rintro ⟨st, f1, f2, cm, op⟩ hst hf1 hf2
    subst hst
    subst hf1
    subst hf2
    simp [handleNextStep, validateCurrentStep, validateFileSelection,
      validateForwardTransition, WorkflowState.val, WorkflowState.ofVal]
  · rintro ⟨st, f1, f2, cm, op⟩
    cases st <;> cases f1 <;> cases f2 <;> cases cm <;> cases op <;>
      simp [handleNextStep, validateCurrentStep, validateFileSelection,
        validateColumnMapping, validateOperationConfig,
        validateForwardTransition, WorkflowState.val, WorkflowState.ofVal]

/-- C4 witness: one file selected blocks the transition with the error
dialog; both files selected advances to column mapping. -/

theorem workflow_next_step_gated_witness :
    (handleNextStep ⟨.FILE_SELECTION, true, false, false, false⟩).1 =
      ⟨.FILE_SELECTION, true, false, false, false⟩ ∧
    (handleNextStep ⟨.FILE_SELECTION, true, false, false, false⟩).2 =
      ["Please select both files before proceeding."] ∧
    (handleNextStep ⟨.FILE_SELECTION, true, true, false, false⟩).1.currentState =
      .COLUMN_MAPPING := by
  have h := workflow_next_step_gated
  have h1 := h.1 ⟨.FILE_SELECTION, true, false, false, false⟩ rfl rfl
  have h2 := h.2.1 ⟨.FILE_SELECTION, true, true, false, false⟩ rfl rfl rfl
  exact ⟨h1.1, h1.2, h2.1⟩

/-! ### C5: results pagination -/

/-- C5: `display_results` computes `total_pages` as the ceiling of
`total_rows / rows_per_page` floored at 1 (the quantity
`(total + rpp - 1) / rpp` is exactly that ceiling: it is the least `m`
with `total ≤ m * rpp`); page p shows the 1-based rows from
`p * rpp + 1` to `min((p+1) * rpp, total)`; Previous is disabled exactly
on page 0 and Next exactly on the last page; a 250-row result at 100 rows
per page has 3 pages, page 2 showing rows 201 to 250 with Next disabled
and Previous enabled. -/

theorem results_pagination_spec :
    (∀ rpp total : Nat, 0 < rpp →
      (displayResults rpp total).totalPages =
        max 1 ((total + rpp - 1) / rpp) ∧
      total ≤ ((total + rpp - 1) / rpp) * rpp ∧
      (∀ m : Nat, total ≤ m * rpp → (total + rpp - 1) / rpp ≤ m)) ∧
    (∀ s : ResultsPanelState,
      pageBounds s = (s.currentPage * s.rowsPerPage,
        min ((s.currentPage + 1) * s.rowsPerPage) s.totalRows) ∧
      (prevEnabled s = false ↔ s.currentPage = 0)) ∧
    (∀ s : ResultsPanelState, s.currentPage < s.totalPages →
      (nextEnabled s = false ↔ s.currentPage = s.totalPages - 1)) ∧
    (displayResults 100 250).totalPages = 3 ∧
    pageBounds (nextPage (nextPage (displayResults 100 250))) = (200, 250) ∧
    prevEnabled (displayResults 100 250) = false ∧
    nextEnabled (nextPage (nextPage (displayResults 100 250))) = false ∧
    prevEnabled (nextPage (nextPage (displayResults 100 250))) = true := by
  refine ⟨?_, ?_, ?_, by decide, by decide, by decide, by decide, by decide⟩
  · intro rpp total hpos
    refine ⟨rfl, ?_, ?_⟩
    · have hdm := Nat.div_add_mod (total + rpp - 1) rpp
      have hmod : (total + rpp - 1) % rpp < rpp := Nat.mod_lt _ hpos
      rw [Nat.mul_comm]
      generalize hP : rpp * ((total + rpp - 1) / rpp) = P
      rw [hP] at hdm
      omega
    · intro m hm
      rw [Nat.div_le_iff_le_mul_add_pred hpos, Nat.mul_comm rpp m]
      generalize hg : m * rpp = q at hm ⊢
      omega
  · intro s
    refine ⟨?_, ?_⟩
    · simp [pageBounds, Nat.succ_mul]
    · simp only [prevEnabled, gt_iff_lt, decide_eq_false_iff_not, not_lt,
        Nat.le_zero]
  · intro s h
    simp only [nextEnabled, decide_eq_false_iff_not, not_lt]
    omega

/-- C5 witness: the general parts applied at 100 rows per page, 250 rows,
and the state on page 2. -/

theorem results_pagination_spec_witness :
    (0 : Nat) < 100 ∧
    (displayResults 100 250).totalPages = max 1 ((250 + 100 - 1) / 100) ∧
    (250 : Nat) ≤ ((250 + 100 - 1) / 100) * 100 ∧
    (250 + 100 - 1) / 100 ≤ 3 ∧
    (nextPage (nextPage (displayResults 100 250))).currentPage <
      (nextPage (nextPage (displayResults 100 250))).totalPages ∧
    (nextEnabled (nextPage (nextPage (displayResults 100 250))) = false ↔
      (nextPage (nextPage (displayResults 100 250))).currentPage =
        (nextPage (nextPage (displayResults 100 250))).totalPages - 1) := by
  have h := results_pagination_spec
  exact ⟨by decide, (h.1 100 250 (by decide)).1, (h.1 100 250 (by decide)).2.1,
    (h.1 100 250 (by decide)).2.2 3 (by decide), by decide,
    h.2.2.1 _ (by decide)⟩

/-! ### C6: export extension validation -/

/-- C6: both exports validate the extension during input validation and
never reach the write when it mismatches: a CSV export to a path whose
(lower-cased) suffix is not `.csv` raises before writing, an Excel export
to a `.csv` path raises before writing; concretely a CSV export to
out.xlsx and an Excel export to out.csv raise the wrapped extension
errors, while a CSV export of non-empty data to out.csv does write. -/

theorem export_extension_validated_before_write :
    (∀ (data : DataFrame) (p : String), data.rows ≠ [] →
      strLower (pathSuffix p) ≠ ".csv" →
      ∀ q, exportToCsv data p ≠ .wrote q) ∧
    (∀ (data : DataFrame) (p : String), data.rows ≠ [] →
      strLower (pathSuffix p) = ".csv" →
      ∀ q, exportToExcel data p ≠ .wrote q) ∧
    exportToCsv exDf1 "out.xlsx" =
      .raised "Failed to export CSV file: CSV format requires .csv file extension" ∧
    exportToExcel exDf1 "out.csv" =
      .raised
        "Failed to export Excel file: Excel format requires .xlsx or .xls file extension" ∧
    exportToCsv exDf1 "out.csv" = .wrote "out.csv" := by
  refine ⟨?_, ?_, by decide, by decide, by decide⟩
  · intro data p hr hsuf q hc
    unfold exportToCsv at hc
    rcases hv : validateExportInputs data p "csv" with _ | msg
    · unfold validateExportInputs at hv
      split at hv
      · exact Option.noConfusion hv
      · split at hv
        · exact Option.noConfusion hv
        · split at hv
          · exact Option.noConfusion hv
          · split at hv
            · exact Option.noConfusion hv
            · split at hv
              · exact Option.noConfusion hv
              · rename_i hcsv hexc
                simp only [Bool.and_eq_true, Bool.not_eq_true',
                  beq_self_eq_true, true_and, List.contains_cons,
                  List.contains_nil, Bool.or_false] at hcsv
                exact hsuf (eq_of_beq (Bool.eq_true_of_not_eq_false hcsv))
    · rw [hv] at hc
      exact ExportOutcome.noConfusion hc
  · intro data p hr hsuf q hc
    unfold exportToExcel at hc
    rcases hv : validateExportInputs data p "excel" with _ | msg
    · unfold validateExportInputs at hv
      split at hv
      · exact Option.noConfusion hv
      · split at hv
        · exact Option.noConfusion hv
        · split at hv
          · exact Option.noConfusion hv
          · split at hv
            · exact Option.noConfusion hv
            · split at hv
              · exact Option.noConfusion hv
              · rename_i hcsv hexc
                rw [hsuf] at hexc
                simp at hexc
    · rw [hv] at hc
      exact ExportOutcome.noConfusion hc

/-- C3 witness: the fallback chain applied to a concrete read oracle where
utf-8 raises a decode error and latin-1 parses a non-empty table. -/

theorem parse_csv_encoding_fallback_witness :
    exAttempt "utf-8" = .decodeError "utf-8 codec cannot decode byte 0x92" ∧
    exAttempt "latin-1" = .parsed ⟨["a"], [[some "1"]]⟩ ∧
    parseCsv exAttempt = .ok ⟨["a"], [[some "1"]]⟩ := by
  have h := (parse_csv_encoding_fallback.2 exAttempt ⟨["a"], [[some "1"]]⟩
    "utf-8 codec cannot decode byte 0x92" "" "" "" (by decide) (by decide)).2.1
  exact ⟨rfl, rfl, h rfl rfl⟩

/-- C6 witness: the extension checks applied at concrete mismatched
paths. -/

theorem export_extension_validated_before_write_witness :
    exDf1.rows ≠ [] ∧
    strLower (pathSuffix "report.XLSX") ≠ ".csv" ∧
    exportToCsv exDf1 "report.XLSX" ≠ .wrote "report.XLSX" ∧
    strLower (pathSuffix "report.csv") = ".csv" ∧
    exportToExcel exDf1 "report.csv" ≠ .wrote "report.csv" := by
  have h := export_extension_validated_before_write
  exact ⟨by decide, by decide,
    h.1 exDf1 "report.XLSX" (by decide) (by decide) "report.XLSX",
    by decide,
    h.2.1 exDf1 "report.csv" (by decide) (by decide) "report.csv"⟩

end FileComparison

